import Mathlib

/-!
Verification of the lens-design scripts of the optiland_Pr repository.

The repository consists of Python scripts that build sequential optical
prescriptions (surfaces, materials, aperture, fields, wavelengths) and hand
them to an external optical-design library for ray tracing and optimization.
This file gives a shallow embedding of the data that the scripts construct
and of the conversion and builder functions defined in the repository
itself, together with spec-level models of the external core components
(paraxial analyzer, ray-trace vignetting, merit function, optimizer) where a
claim is about those components rather than about in-repository code.

Rational numbers stand in for Python floats: every numeric literal that the
scripts write (653.245, 1.517, 0.25, ...) is exactly representable, and the
arithmetic the claims exercise (products, quotients, comparisons) is exact.
-/

namespace OptilandPr

/-- Refractive index of N-BK7 as fixed in all of the repository scripts
(1.517, written as the literal n_bk7 = 1.517). -/
def nBK7 : ℚ := 1517 / 1000

namespace LargeFresnelConcentrator

/-- Embedding of LargeFresnelConcentrator._calculate_fresnel_radius from
fresnel_concentrator_1.5m.py (lines 83-89): radius = 2 * focal_length * (n_bk7 - 1).
The Python method reads self.focal_length; here the focal length is the
explicit argument. -/
def calculate_fresnel_radius (focal_length : ℚ) : ℚ :=
  2 * focal_length * (nBK7 - 1)

end LargeFresnelConcentrator

namespace OptimizedFresnelConcentrator

/-- Embedding of OptimizedFresnelConcentrator._calculate_fresnel_radius from
optimized_1.2m_fresnel.py (lines 99-103): radius = focal_length * (n_bk7 - 1). -/
def calculate_fresnel_radius (focal_length : ℚ) : ℚ :=
  focal_length * (nBK7 - 1)

end OptimizedFresnelConcentrator

namespace RealisticFresnelConcentrator

/-- Embedding of the radius computation in RealisticFresnelConcentrator.__init__
from realistic_power_analysis.py (line 127):
fresnel_radius = self.focal_length * (1.517 - 1). -/
def fresnel_radius (focal_length : ℚ) : ℚ :=
  focal_length * (1517 / 1000 - 1)

end RealisticFresnelConcentrator

/-- Surface record of the Optic data model built by the scripts through
add_surface. none for radius or thickness encodes np.inf, none for material
encodes air; is_stop and conic take the add_surface defaults false and 0
when the scripts omit them. -/
structure OptilandSurface where
  radius : Option ℚ
  thickness : Option ℚ
  material : Option String
  conic : ℚ
  is_stop : Bool
deriving DecidableEq, Repr

/-- Wavelength record of the Optic data model: value in micrometers and the
is_primary flag passed to add_wavelength. -/
structure OptilandWavelength where
  value : ℚ
  is_primary : Bool
deriving DecidableEq, Repr

/-- The lens ("Optic") value a script assembles: named surface list plus
aperture definition, field type, field y-values and wavelength set. -/
structure Optic where
  name : String
  surfaces : List OptilandSurface
  aperture_type : String
  aperture_value : ℚ
  field_type : String
  fields : List ℚ
  wavelengths : List OptilandWavelength
deriving DecidableEq, Repr

/-- Embedding of OptilandAutoLensIntegration.create_realistic_fresnel_lens
from optiland_autolens_integration.py (lines 264-292). Surface 2 is added
with radius=-653.245 exactly as in the source (line 274). -/
def create_realistic_fresnel_lens : Optic :=
  { name := "1.2m_Fresnel_Concentrator"
    surfaces :=
      [ { radius := none, thickness := none, material := none, conic := 0, is_stop := false }
      , { radius := some (653245 / 1000), thickness := some 8, material := some "N-BK7",
          conic := 0, is_stop := true }
      , { radius := some (-(653245 / 1000)), thickness := some 1265, material := none,
          conic := 0, is_stop := false }
      , { radius := none, thickness := some 0, material := none, conic := 0, is_stop := false } ]
    aperture_type := "EPD"
    aperture_value := 1200
    field_type := "angle"
    fields := [0, 1 / 4]
    wavelengths :=
      [ { value := 486 / 1000, is_primary := false }
      , { value := 587 / 1000, is_primary := true }
      , { value := 656 / 1000, is_primary := false } ] }

/-- Embedding of the lens assembled by OptimizedFresnelConcentrator.__init__
in optimized_1.2m_fresnel.py (lines 34-97). The focal length there is
computed with np.arctan, np.sqrt and np.tan and is irrational
(mathematically it equals 400 * sqrt 10); it is taken as the parameter
focal_length, since every claim about this builder concerns the structure
of the lens (stop and primary flags), which does not depend on it. -/
def optimized_fresnel_concentrator (focal_length : ℚ) : Optic :=
  { name := "Optimized_Fresnel_1.2m"
    surfaces :=
      [ { radius := none, thickness := none, material := none, conic := 0, is_stop := false }
      , { radius := some (OptimizedFresnelConcentrator.calculate_fresnel_radius focal_length),
          thickness := some 8, material := some "N-BK7", conic := 0, is_stop := true }
      , { radius := none, thickness := some focal_length, material := none, conic := 0,
          is_stop := false }
      , { radius := none, thickness := some 0, material := none, conic := 0, is_stop := false } ]
    aperture_type := "EPD"
    aperture_value := 1200
    field_type := "angle"
    fields := [0, 1 / 4]
    wavelengths :=
      [ { value := 486 / 1000, is_primary := true }
      , { value := 587 / 1000, is_primary := false }
      , { value := 656 / 1000, is_primary := false } ] }

/-- Embedding of the lens assembled by WideAngleFisheyeLens.__init__ in
wide_angle_fisheye_optimizer.py (lines 41-152): twelve surfaces plus the
image plane, EPD 1.5, seven field angles and three wavelengths with the
green 0.550 primary. -/
def wide_angle_fisheye_lens : Optic :=
  { name := "Fisheye_170deg"
    surfaces :=
      [ { radius := none, thickness := none, material := none, conic := 0, is_stop := false }
      , { radius := some (-25), thickness := some 3, material := some "N-SF11", conic := 0,
          is_stop := false }
      , { radius := some (-40), thickness := some 6, material := none, conic := 0, is_stop := false }
      , { radius := some (-20), thickness := some (5 / 2), material := some "N-SF11", conic := 0,
          is_stop := false }
      , { radius := some (-30), thickness := some 5, material := none, conic := 0, is_stop := false }
      , { radius := none, thickness := some 3, material := none, conic := 0, is_stop := true }
      , { radius := some 15, thickness := some (7 / 2), material := some "N-BK7", conic := 0,
          is_stop := false }
      , { radius := some (-12), thickness := some 4, material := none, conic := 0, is_stop := false }
      , { radius := some 18, thickness := some 3, material := some "N-LAK12", conic := 0,
          is_stop := false }
      , { radius := some (-14), thickness := some 3, material := none, conic := 0, is_stop := false }
      , { radius := some 16, thickness := some (5 / 2), material := some "N-BK7", conic := 0,
          is_stop := false }
      , { radius := some (-18), thickness := some 10, material := none, conic := 0, is_stop := false }
      , { radius := none, thickness := some 0, material := none, conic := 0, is_stop := false } ]
    aperture_type := "EPD"
    aperture_value := 3 / 2
    field_type := "angle"
    fields := [0, 15, 30, 45, 60, 75, 85]
    wavelengths :=
      [ { value := 460 / 1000, is_primary := false }
      , { value := 550 / 1000, is_primary := true }
      , { value := 620 / 1000, is_primary := false } ] }

/-- Embedding of the lens assembled by SimpleEndoscope.__init__ in
simple_endoscope_4mm.py (lines 9-45): eight surfaces plus the image plane,
EPD 3.0, three field angles and three wavelengths with 0.588 primary. -/
def simple_endoscope : Optic :=
  { name := ""
    surfaces :=
      [ { radius := none, thickness := none, material := none, conic := 0, is_stop := false }
      , { radius := some 8, thickness := some 3, material := some "N-BK7", conic := 0,
          is_stop := false }
      , { radius := some (-12), thickness := some 5, material := none, conic := 0, is_stop := false }
      , { radius := none, thickness := some 2, material := none, conic := 0, is_stop := true }
      , { radius := some (-6), thickness := some 2, material := some "N-SF11", conic := 0,
          is_stop := false }
      , { radius := some 10, thickness := some 8, material := none, conic := 0, is_stop := false }
      , { radius := some 5, thickness := some 3, material := some "N-BK7", conic := 0,
          is_stop := false }
      , { radius := some (-8), thickness := some 7, material := none, conic := 0, is_stop := false }
      , { radius := none, thickness := some 0, material := none, conic := 0, is_stop := false } ]
    aperture_type := "EPD"
    aperture_value := 3
    field_type := "angle"
    fields := [0, 5, 10]
    wavelengths :=
      [ { value := 486 / 1000, is_primary := false }
      , { value := 588 / 1000, is_primary := true }
      , { value := 656 / 1000, is_primary := false } ] }

/-- Per-operand input dictionary passed to problem.add_operand by the
optimization scripts (the optic back-reference is implicit: the operand is
evaluated against the lens the problem was built for). distribution is none
when the script omits the key. -/
structure OperandInput where
  surface_number : Int
  Hx : ℚ
  Hy : ℚ
  num_rays : ℕ
  wavelength : ℚ
  distribution : Option String
deriving DecidableEq, Repr

/-- One merit-function operand as registered by problem.add_operand. -/
structure Operand where
  operand_type : String
  target : ℚ
  weight : ℚ
  input_data : OperandInput
deriving DecidableEq, Repr

/-- One optimization variable as registered by problem.add_variable:
attribute name, surface number and the declared bounds min_val, max_val. -/
structure OptimizationVariable where
  attr : String
  surface_number : ℕ
  min_val : ℚ
  max_val : ℚ
deriving DecidableEq, Repr

/-- An optimization problem: the registered operands and variables. -/
structure OptimizationProblem where
  operands : List Operand
  vars : List OptimizationVariable
deriving DecidableEq, Repr

/-- Field angles of the fisheye optimization setup
(wide_angle_fisheye_optimizer.py line 170). -/
def field_angles : List ℚ := [0, 15, 30, 45, 60, 75, 85]

/-- Maximum field angle of the fisheye setup (line 171). -/
def max_angle : ℚ := 85

/-- Normalized field coordinates, line 174: field_angles / max_angle. -/
def normalized_fields : List ℚ := field_angles.map (fun a => a / max_angle)

/-- Surface indices whose radii the fisheye script optimizes (lines 196-207). -/
def radii_to_optimize : List ℕ := [1, 2, 3, 4, 6, 7, 8, 9, 10, 11]

/-- Embedding of create_optimization_problem from
wide_angle_fisheye_optimizer.py (lines 155-218): one rms_spot_size operand
per normalized field (num_rays 31, wavelength 0.550, hexapolar
distribution, target 0, weight 1) and one radius variable per listed
surface with bounds min_val = -100, max_val = 100. -/
def create_optimization_problem : OptimizationProblem :=
  { operands := normalized_fields.map (fun hy =>
      { operand_type := "rms_spot_size"
        target := 0
        weight := 1
        input_data :=
          { surface_number := -1, Hx := 0, Hy := hy, num_rays := 31,
            wavelength := 550 / 1000, distribution := some "hexapolar" } })
    vars := radii_to_optimize.map (fun idx =>
      { attr := "radius", surface_number := idx, min_val := -100, max_val := 100 }) }

/-- Per-surface radius bounds declared by optimize_endoscope
(simple_endoscope_4mm.py lines 54-59), as (surface_number, min_val, max_val). -/
def endoscope_radius_bounds : List (ℕ × ℚ × ℚ) :=
  [(1, 5, 15), (2, -20, -5), (4, -10, -2), (5, 5, 20), (6, 2, 10), (7, -15, -3)]

/-- Embedding of the problem built by optimize_endoscope
(simple_endoscope_4mm.py lines 47-78): six bounded radius variables and one
rms_spot_size operand per field with Hy = field_angle / 10.0, num_rays 31,
wavelength 0.588 and no distribution key. The operand surface number is
num_surfaces - 1 of the endoscope lens. -/
def endoscope_problem : OptimizationProblem :=
  { operands := simple_endoscope.fields.map (fun a =>
      { operand_type := "rms_spot_size"
        target := 0
        weight := 1
        input_data :=
          { surface_number := Int.ofNat (simple_endoscope.surfaces.length - 1),
            Hx := 0, Hy := a / 10, num_rays := 31,
            wavelength := 588 / 1000, distribution := none } })
    vars := endoscope_radius_bounds.map (fun b =>
      { attr := "radius", surface_number := b.1, min_val := b.2.1, max_val := b.2.2 }) }

/-- Surface record of the AutoLens dictionary format produced by
optiland_to_autolens: index, radius and thickness (none encodes the string
"infinity"), material name ("air" when the Optic surface has no material)
and conic. The is_stop flag of the Optic surface has no counterpart here
(source lines 135-141 write only index, radius, thickness, material, conic). -/
structure AutolensSurface where
  index : ℕ
  radius : Option ℚ
  thickness : Option ℚ
  material : String
  conic : ℚ
deriving DecidableEq, Repr

/-- The AutoLens dictionary format: lens_name, surfaces, field y-values,
wavelength values (no primary flag is recorded, source lines 149-152) and
the aperture entry. -/
structure AutolensData where
  lens_name : String
  surfaces : List AutolensSurface
  fields : List ℚ
  wavelengths : List ℚ
  aperture_type : String
  aperture_value : ℚ
deriving DecidableEq, Repr

/-- Surface conversion step of optiland_to_autolens (source lines 116-142):
radius and thickness pass through (np.inf becoming "infinity", here none),
the material name defaults to "air", conic passes through. -/
def surface_to_autolens (i : ℕ) (s : OptilandSurface) : AutolensSurface :=
  { index := i
    radius := s.radius
    thickness := s.thickness
    material := s.material.getD "air"
    conic := s.conic }

/-- Recursion implementing the enumerate loop of optiland_to_autolens over
the surface list, starting at index i. -/
def number_surfaces : ℕ → List OptilandSurface → List AutolensSurface
  | _, [] => []
  | i, s :: rest => surface_to_autolens i s :: number_surfaces (i + 1) rest

/-- Modelled from the spec: the external call
optiland_lens.surface_group.aperture_surface().aperture_radius * 2 used at
source line 156 is not in the repository. For an entrance-pupil-diameter
aperture with the stop at the entrance pupil (the configuration of every
script lens) the stop diameter equals the EPD value; any other aperture
type falls into the except branch of the source, which substitutes the
default 1200.0. -/
def aperture_surface_diameter (lens : Optic) : Option ℚ :=
  if lens.aperture_type = "EPD" then some lens.aperture_value else none

/-- Embedding of OptilandAutoLensIntegration.optiland_to_autolens from
optiland_autolens_integration.py (lines 109-171). Stop markings, primary
flags, the field type and the aperture type of the input lens are not
recorded; the output aperture type is always "EPD". -/
def optiland_to_autolens (lens : Optic) : AutolensData :=
  { lens_name := lens.name
    surfaces := number_surfaces 0 lens.surfaces
    fields := lens.fields
    wavelengths := lens.wavelengths.map (fun w => w.value)
    aperture_type := "EPD"
    aperture_value := (aperture_surface_diameter lens).getD 1200 }

/-- Surface conversion step of autolens_to_optiland (source lines 183-202):
radius, thickness and conic pass through, the material string "air" becomes
no material, and is_stop is never passed to add_surface, so it takes the
default false. -/
def autolens_surface_to_optiland (s : AutolensSurface) : OptilandSurface :=
  { radius := s.radius
    thickness := s.thickness
    material := if s.material = "air" then none else some s.material
    conic := s.conic
    is_stop := false }

/-- Recursion implementing the enumerate loop of autolens_to_optiland over
the wavelength list (source lines 217-219): is_primary = (i == 1), the
comment there reading "Middle wavelength as primary". -/
def mark_primaries : ℕ → List ℚ → List OptilandWavelength
  | _, [] => []
  | i, w :: rest => { value := w, is_primary := i == 1 } :: mark_primaries (i + 1) rest

/-- Embedding of OptilandAutoLensIntegration.autolens_to_optiland from
optiland_autolens_integration.py (lines 173-221). -/
def autolens_to_optiland (d : AutolensData) : Optic :=
  { name := d.lens_name
    surfaces := d.surfaces.map autolens_surface_to_optiland
    aperture_type := d.aperture_type
    aperture_value := d.aperture_value
    field_type := "angle"
    fields := d.fields
    wavelengths := mark_primaries 0 d.wavelengths }

/-- Composition of the two conversions, the round trip of claim C3. -/
def round_trip (lens : Optic) : Optic :=
  autolens_to_optiland (optiland_to_autolens lens)

/-- Number of surfaces of a lens marked as the stop. -/
def countStops (lens : Optic) : ℕ :=
  lens.surfaces.countP (fun s => s.is_stop)

/-- Number of wavelengths of a lens marked primary. -/
def countPrimaries (lens : Optic) : ℕ :=
  lens.wavelengths.countP (fun w => w.is_primary)

/-- Model of a GeoLens object handed to geolens_to_dict; only its identity
matters, since the claims establish that the function ignores it. -/
structure GeoLens where
  filename : String
deriving DecidableEq, Repr

/-- The fixed placeholder dictionary of geolens_to_dict. -/
def autolens_placeholder : AutolensData :=
  { lens_name := "AutoLens_Optimized"
    surfaces := []
    fields := [0, 1 / 4]
    wavelengths := [486 / 1000, 587 / 1000, 656 / 1000]
    aperture_type := "EPD"
    aperture_value := 1200 }

/-- Embedding of OptilandAutoLensIntegration.geolens_to_dict from
optiland_autolens_integration.py (lines 294-316): the body returns the
placeholder dictionary at line 299; the textually identical block repeated
after that return (lines 306-316) is unreachable in Python, so the
function is the constant placeholder. -/
def geolens_to_dict (_geo_lens : GeoLens) : AutolensData :=
  autolens_placeholder

/-- Embedding of OptilandAutoLensIntegration.run_autolens_optimization from
optiland_autolens_integration.py (lines 223-262). The external
GeoLens(filename=...) load and lens.analysis(render=False) call are modelled
by the load_and_analyze argument: an exception there lands in the except
branch returning None; otherwise the result of geolens_to_dict on the loaded
lens is returned. AutoLens being unavailable returns None up front. -/
def run_autolens_optimization (autolens_available : Bool)
    (load_and_analyze : Except String GeoLens) (_initial_spec : AutolensData) :
    Option AutolensData :=
  if autolens_available then
    match load_and_analyze with
    | Except.error _ => none
    | Except.ok lens => some (geolens_to_dict lens)
  else
    none

/-- Modelled from the spec: the refractive-index lookup of the external
Material/GlassCatalog component. The scripts fix the only index any claim
uses, N-BK7 at 1.517; no material (air) has index 1, and any other glass
name is left at the spec lower bound 1, since no theorem below evaluates
refraction in those glasses. -/
def mediumIndex : Option String → ℚ
  | none => 1
  | some m => if m = "N-BK7" then nBK7 else 1

/-- Paraxial ray state: height y and reduced angle nu = n * u. -/
structure ParaxRay where
  y : ℚ
  nu : ℚ
deriving DecidableEq, Repr

/-- Modelled from the spec: linearized refraction of the external
ParaxialAnalyzer (section 4.2), surface power (n_out - n_in) / R, zero for a
flat surface: nu becomes nu - y * power. -/
def parax_refract (r : ParaxRay) (radius : Option ℚ) (n_in n_out : ℚ) : ParaxRay :=
  { y := r.y
    nu := r.nu - r.y * (match radius with
      | none => 0
      | some R => (n_out - n_in) / R) }

/-- Modelled from the spec: paraxial transfer over thickness t in a medium
of index n: y becomes y + t * (nu / n). -/
def parax_transfer (r : ParaxRay) (t n : ℚ) : ParaxRay :=
  { y := r.y + t * (r.nu / n), nu := r.nu }

/-- Modelled from the spec: the standard paraxial ray-transfer recursion of
the external ParaxialAnalyzer over the refracting surfaces, threading the
incoming medium index (the prior surface material, per section 4.1c). -/
def parax_trace : ParaxRay → ℚ → List OptilandSurface → ParaxRay
  | r, _, [] => r
  | r, n_in, s :: rest =>
      let n_out := mediumIndex s.material
      let r1 := parax_refract r s.radius n_in n_out
      let r2 := parax_transfer r1 (s.thickness.getD 0) n_out
      parax_trace r2 n_out rest

/-- Refracting surfaces of a lens: everything strictly between the object
surface (index 0) and the image surface (last index). -/
def interior_surfaces (lens : Optic) : List OptilandSurface :=
  (lens.surfaces.drop 1).dropLast

/-- Modelled from the spec: effective_focal_length of the external
ParaxialAnalyzer (section 4.2). A ray of unit height parallel to the axis
is traced from air through the refracting surfaces; the EFL is -y0 / u_img
with u_img the final angle in air, and none signals DegenerateSystem (zero
accumulated power). -/
def effective_focal_length (lens : Optic) : Option ℚ :=
  let out := parax_trace { y := 1, nu := 0 } 1 (interior_surfaces lens)
  if out.nu = 0 then none else some (-(1 / out.nu))

/-- The prescription of create_realistic_fresnel_lens with the back surface
of the lens flat (radius infinity instead of -653.245), the plano-convex
form that the claim C2 scenario and the other three scripts describe; it
differs from the code-built lens only in the radius of surface 2. -/
def realistic_fresnel_lens_flat_back : Optic :=
  { create_realistic_fresnel_lens with
    surfaces :=
      [ { radius := none, thickness := none, material := none, conic := 0, is_stop := false }
      , { radius := some (653245 / 1000), thickness := some 8, material := some "N-BK7",
          conic := 0, is_stop := true }
      , { radius := none, thickness := some 1265, material := none, conic := 0, is_stop := false }
      , { radius := none, thickness := some 0, material := none, conic := 0, is_stop := false } ] }

/-- Bundle of traced rays at the image plane: image-plane positions of the
surviving rays and the count of failed (vignetted) rays. The spec makes a
trace with zero survivors a valid value, not an error. -/
structure RayBundle where
  survivors : List (ℚ × ℚ)
  failed : ℕ
deriving DecidableEq, Repr

/-- Semi-aperture of the stop derived from the aperture definition:
half the entrance-pupil diameter. -/
def stop_semi_aperture (lens : Optic) : ℚ :=
  lens.aperture_value / 2

/-- Modelled from the spec: the stop-surface vignetting check of the
external RayTracer (section 4.1). Normalized pupil points are scaled by the
stop semi-aperture; a ray survives when it lands strictly inside the
physical aperture, so a zero-value aperture blocks every ray (the spec
scenario: aperture value 0 must yield zero successful rays, not a crash).
The refractive propagation between surfaces is an affine bijection in the
paraxial model and is absorbed into the reported coordinates; it neither
creates nor destroys rays, which is all the claims about this model use. -/
def traceField (lens : Optic) (_Hy _wavelength : ℚ) (pupil : List (ℚ × ℚ)) : RayBundle :=
  let r := stop_semi_aperture lens
  let pts := pupil.map (fun p => (r * p.1, r * p.2))
  let surv := pts.filter (fun q => q.1 ^ 2 + q.2 ^ 2 < r ^ 2)
  { survivors := surv, failed := pts.length - surv.length }

/-- The large fixed penalty the merit function returns when zero rays
survive a trace. -/
def NO_RAYS_PENALTY : ℚ := 10 ^ 10

/-- A bound on any realistic RMS spot size in millimeters for these systems
(a full meter of blur); the penalty exceeds it by orders of magnitude. -/
def MAX_REALISTIC_RMS : ℚ := 10 ^ 3

/-- Sum of a list of rationals. -/
def qsum (l : List ℚ) : ℚ := l.foldr (fun a b => a + b) 0

/-- Centroid of a list of image-plane points. -/
def centroid (pts : List (ℚ × ℚ)) : ℚ × ℚ :=
  (qsum (pts.map Prod.fst) / pts.length, qsum (pts.map Prod.snd) / pts.length)

/-- Mean squared radial deviation of the points from their centroid. The
external library reports its square root; the square root of a rational is
irrational in general, and every claim below compares spot values only for
determinism or against the empty-bundle penalty, so the squared quantity is
carried exactly. -/
def mean_square_radius (pts : List (ℚ × ℚ)) : ℚ :=
  let c := centroid pts
  qsum (pts.map (fun p => (p.1 - c.1) ^ 2 + (p.2 - c.2) ^ 2)) / pts.length

/-- Modelled from the spec: the rms_spot_size operand value (section 4.3).
If zero rays survive it returns the large fixed penalty instead of failing;
otherwise the centroid-based spread of the surviving rays. -/
def rms_spot_size_value (b : RayBundle) : ℚ :=
  if b.survivors.isEmpty then NO_RAYS_PENALTY else mean_square_radius b.survivors

/-- Rational point of the unit circle with parameter t (tangent half-angle
parametrization), used to build exact ring samples. -/
def circle_point (t : ℚ) : ℚ × ℚ :=
  ((1 - t ^ 2) / (1 + t ^ 2), 2 * t / (1 + t ^ 2))

/-- One hexapolar ring: 6 * j exact rational direction samples at radius
j / rings. -/
def hexapolar_ring (rings j : ℕ) : List (ℚ × ℚ) :=
  (List.range (6 * j)).map (fun k =>
    let d := circle_point (k / (6 * j : ℚ))
    ((j / rings : ℚ) * d.1, (j / rings : ℚ) * d.2))

/-- Modelled from the spec: the deterministic pupil sampling of the external
RayTracer. The hexapolar pattern is a center point plus concentric rings of
6 * j points (spec glossary); the rational circle parametrization stands in
for the trigonometric ring directions of the library, which are irrational.
Any other (or absent) distribution name falls back to the same seedless
pattern; nothing here reads a clock or an entropy source. -/
def samplePupil (_distribution : Option String) (num_rays : ℕ) : List (ℚ × ℚ) :=
  (0, 0) :: (List.range num_rays).flatMap (fun j => hexapolar_ring num_rays (j + 1))

/-- Ambient environment a merit evaluation could in principle observe:
wall-clock time and an entropy pool. The determinism claim is that
evaluation does not depend on it. -/
structure MeritEnv where
  wall_clock : ℕ
  entropy : ℕ
deriving DecidableEq, Repr

/-- Modelled from the spec: the value of one operand (section 4.3); an
rms_spot_size operand traces its field and wavelength with its fixed ray
count and distribution and takes the spot value; other operand types are
outside the claims and evaluate to 0. -/
def evaluate_operand (lens : Optic) (op : Operand) : ℚ :=
  if op.operand_type = "rms_spot_size" then
    rms_spot_size_value (traceField lens op.input_data.Hy op.input_data.wavelength
      (samplePupil op.input_data.distribution op.input_data.num_rays))
  else 0

/-- Modelled from the spec: MeritFunction.evaluate (section 4.3), the
weighted sum of squared deviations of operand values from their targets. -/
def evaluate (lens : Optic) (operands : List Operand) : ℚ :=
  qsum (operands.map (fun op => op.weight * (evaluate_operand lens op - op.target) ^ 2))

/-- Merit evaluation as run inside a process with ambient state: the
environment is in scope, and per the spec the evaluation must not consult
it, which the model realizes by delegating to the pure evaluate. -/
def evaluate_in_env (_env : MeritEnv) (lens : Optic) (operands : List Operand) : ℚ :=
  evaluate lens operands

namespace RealisticSolarConcentrator

/-- Methods defined by class RealisticSolarConcentrator in
realistic_fresnel_solar_concentrator.py: its def statements are at lines
35, 111 and 120 and there are no others in the class body. -/
def methods : List String :=
  ["__init__", "_calculate_fresnel_radius", "analyze_power_density_vs_distance"]

end RealisticSolarConcentrator

/-- Return values occurring in the body of analyze_power_density_vs_distance
(realistic_fresnel_solar_concentrator.py lines 120-206): the
distance-analysis dictionary returned at lines 154-162, and the
concentration dictionary built by the code at lines 164-206 sitting after
that return. The numeric payloads involve pi and are not needed by the
claim, which is about which of the two returns executes. -/
inductive SolarValue
  | distance_analysis
  | concentration_dict
deriving DecidableEq, Repr

/-- A Python statement for the early-return model: some v is a return
statement, none is any other statement. -/
def runBody (stmts : List (Option SolarValue)) : Option SolarValue :=
  stmts.findSome? id

/-- The statement skeleton of analyze_power_density_vs_distance: setup and
loop (no return), the return of the distance-analysis dictionary at line
154, then the trailing concentration computation ending in the return at
line 199. -/
def analyze_power_density_body : List (Option SolarValue) :=
  [none, none, some SolarValue.distance_analysis, none, some SolarValue.concentration_dict]

/-- Python attribute lookup on an instance of a class with the given method
table: a missing name raises AttributeError. -/
def getattr_call (cls : List String) (name : String) : Except String Unit :=
  if name ∈ cls then Except.ok () else Except.error ("AttributeError: " ++ name)

/-- The loop of main in realistic_fresnel_solar_concentrator.py (lines
500-519 and onward): for each target concentration in [5, 10, 25] a lens is
constructed and lens.get_realistic_concentration() is called (line 518); the
middle iteration would additionally run the detailed analysis and write the
report file. The accumulator records the report files written so far. -/
def solar_main_loop : List ℚ → List String → Except String (List String)
  | [], written => Except.ok written
  | target :: rest, written => do
      let _ ← getattr_call RealisticSolarConcentrator.methods "__init__"
      let _ ← getattr_call RealisticSolarConcentrator.methods "get_realistic_concentration"
      let written := if target = 10 then
          written ++ ["REALISTIC_SOLAR_CONCENTRATOR_REPORT.txt"] else written
      solar_main_loop rest written

/-- Embedding of main in realistic_fresnel_solar_concentrator.py (lines
483 onward): the three design options of line 502. -/
def solar_main : Except String (List String) :=
  solar_main_loop [5, 10, 25] []

/-- Bounds of one optimization variable. -/
structure VarBounds where
  lo : ℚ
  hi : ℚ
deriving DecidableEq, Repr

/-- The bounds vector an OptimizationProblem declares, in variable order. -/
def problem_bounds (p : OptimizationProblem) : List VarBounds :=
  p.vars.map (fun v => { lo := v.min_val, hi := v.max_val })

/-- Clamp a value into a bounds interval. -/
def clampB (b : VarBounds) (x : ℚ) : ℚ :=
  max b.lo (min b.hi x)

/-- Coordinatewise clamp of a candidate vector into the bounds box;
the result has the length of the bounds list whenever the vector is at
least that long. -/
def clampVec (bs : List VarBounds) (v : List ℚ) : List ℚ :=
  List.zipWith clampB bs v

/-- A candidate vector lies within the declared bounds: right length and
every coordinate inside its closed interval. -/
def InBoundsVec (bs : List VarBounds) (v : List ℚ) : Prop :=
  v.length = bs.length ∧ ∀ i < bs.length,
    (bs.getD i { lo := 0, hi := 0 }).lo ≤ v.getD i 0 ∧
    v.getD i 0 ≤ (bs.getD i { lo := 0, hi := 0 }).hi

instance (bs : List VarBounds) (v : List ℚ) : Decidable (InBoundsVec bs v) := by
  unfold InBoundsVec
  infer_instance

/-- Modelled from the spec: differential-evolution mutation (section 4.4),
donor = a + F * (b - c) coordinatewise. -/
def de_mutate (F : ℚ) (a b c : List ℚ) : List ℚ :=
  List.zipWith (fun x p => x + F * (p.1 - p.2)) a (List.zip b c)

/-- Modelled from the spec: binomial crossover; coordinate i of the trial
comes from the donor where the mask is true (and the donor is long enough),
else from the parent. The result always has the length of the parent. -/
def de_crossover (mask : List Bool) (donor parent : List ℚ) : List ℚ :=
  (List.range parent.length).map (fun i =>
    if mask.getD i false && decide (i < donor.length) then donor.getD i 0
    else parent.getD i 0)

/-- The stochastic choices of one member update in one generation: the three
donor indices of the population and the crossover mask. Keeping them as data
makes the search deterministic in its inputs, as the spec requires. -/
structure DEChoice where
  ia : ℕ
  ib : ℕ
  ic : ℕ
  mask : List Bool
deriving DecidableEq, Repr

/-- Modelled from the spec: one member update of a generation. The donor is
mutated from three population members, crossed with the parent, clamped
into the bounds box, and greedy selection keeps the better of trial and
parent (elitism at member level). -/
def de_member_step (merit : List ℚ → ℚ) (bs : List VarBounds) (F : ℚ)
    (pop : List (List ℚ)) (x : List ℚ) (ch : DEChoice) : List ℚ :=
  let a := pop.getD ch.ia x
  let b := pop.getD ch.ib x
  let c := pop.getD ch.ic x
  let trial := clampVec bs (de_crossover ch.mask (de_mutate F a b c) x)
  if merit trial ≤ merit x then trial else x

/-- Update loop of one generation: each member of xs is updated with its
planned choices against the fixed donor pool pop; members beyond the plan
are carried unchanged, so a generation never changes the population size. -/
def de_generation_aux (merit : List ℚ → ℚ) (bs : List VarBounds) (F : ℚ)
    (pop : List (List ℚ)) : List (List ℚ) → List DEChoice → List (List ℚ)
  | [], _ => []
  | xs, [] => xs
  | x :: xs, ch :: plan =>
      de_member_step merit bs F pop x ch :: de_generation_aux merit bs F pop xs plan

/-- Modelled from the spec: one generation of the population-based search. -/
def de_generation (merit : List ℚ → ℚ) (bs : List VarBounds) (F : ℚ)
    (pop : List (List ℚ)) (plan : List DEChoice) : List (List ℚ) :=
  de_generation_aux merit bs F pop pop plan

/-- Modelled from the spec: the generation loop, driven by the per-generation
plans of stochastic choices. -/
def de_run : (merit : List ℚ → ℚ) → (bs : List VarBounds) → (F : ℚ) →
    List (List DEChoice) → List (List ℚ) → List (List ℚ)
  | _, _, _, [], pop => pop
  | merit, bs, F, plan :: plans, pop =>
      de_run merit bs F plans (de_generation merit bs F pop plan)

/-- Modelled from the spec: population seeding inside the bounded region;
each seed vector is padded and clamped into the box. -/
def de_init_population (bs : List VarBounds) (seeds : List (List ℚ)) : List (List ℚ) :=
  seeds.map (fun s => clampVec bs (s ++ List.replicate bs.length 0))

/-- Best member of the final population under the merit function. -/
def de_best (merit : List ℚ → ℚ) (pop : List (List ℚ)) : List ℚ :=
  pop.foldl (fun best v => if merit v ≤ merit best then v else best) (pop.headD [])

/-- Modelled from the spec: the Optimizer entry point (section 4.4); on
return, the best-found candidate vector is the solution applied to the
lens. -/
def de_optimize (merit : List ℚ → ℚ) (bs : List VarBounds) (F : ℚ)
    (seeds : List (List ℚ)) (plans : List (List DEChoice)) : List ℚ :=
  de_best merit (de_run merit bs F plans (de_init_population bs seeds))

/-- Claim C1: the scripts are internally inconsistent about the lens-maker
convention: for every focal length f and the fixed index n = 1.517,
LargeFresnelConcentrator._calculate_fresnel_radius returns 2 * f * (n - 1),
while OptimizedFresnelConcentrator._calculate_fresnel_radius and the radius
computation of RealisticFresnelConcentrator.__init__ return f * (n - 1), so
for equal focal length the 1.5m script radius is exactly twice the
majority-convention radius. -/
theorem claim_C1_fresnel_radius_inconsistency :
    (∀ f : ℚ, LargeFresnelConcentrator.calculate_fresnel_radius f = 2 * f * (nBK7 - 1)) ∧
    (∀ f : ℚ, OptimizedFresnelConcentrator.calculate_fresnel_radius f = f * (nBK7 - 1)) ∧
    (∀ f : ℚ, RealisticFresnelConcentrator.fresnel_radius f = f * (nBK7 - 1)) ∧
    ∀ f : ℚ, LargeFresnelConcentrator.calculate_fresnel_radius f =
      2 * OptimizedFresnelConcentrator.calculate_fresnel_radius f := by
  refine ⟨fun f => rfl, fun f => rfl, fun f => rfl, fun f => ?_⟩
  unfold LargeFresnelConcentrator.calculate_fresnel_radius
    OptimizedFresnelConcentrator.calculate_fresnel_radius
  ring

/-- Claim C2 (evaluation at the failing input): the prescription built by
create_realistic_fresnel_lens is not the plano-convex lens of the claim:
its surface 2 carries radius -653.245, and the standard paraxial
ray-transfer recursion gives its EFL as 129469587709585 / 204505484722,
about 633.09 mm, below even the lower end of the 1265 mm plus or minus 1%
band (1252.35 mm) and so outside it. The flat-back
(plano-convex) variant of the same prescription has EFL 653245 / 517,
about 1263.53 mm, which is within the 1% band and equals R / (n - 1),
confirming that the claim describes the intended design and the code's
surface-2 radius is the defect. -/
theorem claim_C2_paraxial_efl_evaluation :
    effective_focal_length create_realistic_fresnel_lens =
      some (129469587709585 / 204505484722) ∧
    (129469587709585 : ℚ) / 204505484722 < 1265 * (99 / 100) ∧
    effective_focal_length realistic_fresnel_lens_flat_back = some (653245 / 517) ∧
    1265 * (99 / 100) ≤ (653245 : ℚ) / 517 ∧
    (653245 : ℚ) / 517 ≤ 1265 * (101 / 100) := by
  refine ⟨?_, by norm_num, ?_, by norm_num, by norm_num⟩
  · simp [effective_focal_length, interior_surfaces, create_realistic_fresnel_lens,
      parax_trace, parax_refract, parax_transfer, mediumIndex, nBK7]
    norm_num
  · simp [effective_focal_length, interior_surfaces, realistic_fresnel_lens_flat_back,
      create_realistic_fresnel_lens, parax_trace, parax_refract, parax_transfer,
      mediumIndex, nBK7]
    norm_num

/-- Claim C8: in both optimization setups the normalized field coordinate
Hy of each rms_spot_size operand equals the field angle divided by the
maximum field angle of the declared field set: the fisheye angles
0, 15, 30, 45, 60, 75, 85 map to 0, 15/85, ..., 1 (maximum 85) and the
endoscope angles 0, 5, 10 map to 0, 1/2, 1 (maximum 10). -/
theorem claim_C8_field_normalization :
    create_optimization_problem.operands.map (fun op => op.input_data.Hy) =
      field_angles.map (fun a => a / max_angle) ∧
    create_optimization_problem.operands.map (fun op => op.input_data.Hy) =
      [0, 15 / 85, 30 / 85, 45 / 85, 60 / 85, 75 / 85, 1] ∧
    endoscope_problem.operands.map (fun op => op.input_data.Hy) =
      simple_endoscope.fields.map (fun a => a / 10) ∧
    endoscope_problem.operands.map (fun op => op.input_data.Hy) = [0, 1 / 2, 1] := by
  refine ⟨rfl, ?_, rfl, ?_⟩
  · simp [create_optimization_problem, normalized_fields, field_angles, max_angle]
  · simp [endoscope_problem, simple_endoscope]
    norm_num

/-- Claim C9: class RealisticSolarConcentrator defines no method
get_realistic_concentration (the concentration computation sits after the
return of analyze_power_density_vs_distance, whose result is the
distance-analysis dictionary regardless of that trailing code), so the main
function of realistic_fresnel_solar_concentrator.py raises AttributeError
at the first lens.get_realistic_concentration() call and never completes to
write the report file. -/
theorem claim_C9_missing_concentration_method :
    RealisticSolarConcentrator.methods.contains "get_realistic_concentration" = false ∧
    runBody analyze_power_density_body = some SolarValue.distance_analysis ∧
    solar_main = Except.error "AttributeError: get_realistic_concentration" := by
  refine ⟨by decide, by decide, rfl⟩

/-- Claim C10: geolens_to_dict returns the fixed placeholder dictionary for
every input GeoLens object (the duplicate block after its first return is
unreachable), so run_autolens_optimization either returns None or returns
exactly that placeholder, never a value depending on the optimization it
ran. -/
theorem claim_C10_placeholder_constant :
    (∀ g : GeoLens, geolens_to_dict g = autolens_placeholder) ∧
    ∀ (avail : Bool) (load : Except String GeoLens) (ispec : AutolensData),
      run_autolens_optimization avail load ispec = none ∨
      run_autolens_optimization avail load ispec = some autolens_placeholder := by
  refine ⟨fun g => rfl, fun avail load ispec => ?_⟩
  unfold run_autolens_optimization
  cases avail
  · simp
  · cases load <;> simp [geolens_to_dict]

/-- Projection of a surface to the data optiland_to_autolens records about
it: radius, thickness, material and conic (not is_stop). -/
def surface_core (s : OptilandSurface) : Option ℚ × Option ℚ × Option String × ℚ :=
  (s.radius, s.thickness, s.material, s.conic)

/-- Surface data other than the stop flag survives the conversion round
trip, provided no material is literally named "air" (the air sentinel of
the dictionary format). -/
lemma roundtrip_surface_core (n : ℕ) (l : List OptilandSurface)
    (h : ∀ s ∈ l, s.material ≠ some "air") :
    ((number_surfaces n l).map autolens_surface_to_optiland).map surface_core =
      l.map surface_core := by
  induction l generalizing n with
  | nil => rfl
  | cons s rest ih =>
    have hs : s.material ≠ some "air" := h s (List.mem_cons_self s rest)
    have hrest : ∀ t ∈ rest, t.material ≠ some "air" :=
      fun t ht => h t (List.mem_cons_of_mem s ht)
    simp only [number_surfaces, List.map_cons, ih (n + 1) hrest]
    congr 1
    cases hm : s.material with
    | none => simp [surface_core, autolens_surface_to_optiland, surface_to_autolens, hm]
    | some m =>
      have hmair : ¬ m = "air" := by
        intro e
        exact hs (by rw [hm, e])
      simp [surface_core, autolens_surface_to_optiland, surface_to_autolens, hm, hmair]

/-- The wavelength values survive mark_primaries. -/
lemma mark_primaries_values (n : ℕ) (l : List ℚ) :
    (mark_primaries n l).map (fun w => w.value) = l := by
  induction l generalizing n with
  | nil => rfl
  | cons w rest ih => simp [mark_primaries, ih]

/-- From enumeration index 2 on, mark_primaries marks nothing primary. -/
lemma countP_mark_primaries_of_two_le (n : ℕ) (hn : 2 ≤ n) (l : List ℚ) :
    (mark_primaries n l).countP (fun w => w.is_primary) = 0 := by
  induction l generalizing n with
  | nil => rfl
  | cons w rest ih =>
    have hne : n ≠ 1 := by omega
    simp [mark_primaries, List.countP_cons, hne, ih (n + 1) (by omega)]

/-- The is_primary = (i == 1) loop of autolens_to_optiland marks exactly one
wavelength primary precisely when the list has at least two entries. -/
lemma countPrimaries_mark_primaries (l : List ℚ) :
    (mark_primaries 0 l).countP (fun w => w.is_primary) =
      if 2 ≤ l.length then 1 else 0 := by
  match l with
  | [] => rfl
  | [a] => rfl
  | a :: b :: rest =>
    simp [mark_primaries, List.countP_cons, countP_mark_primaries_of_two_le 2 le_rfl rest]

/-- Claim C3 (counterexample): the conversion round trip is not lossless.
On the lens of create_realistic_fresnel_lens the stop marking of surface 1
is erased, and on the lens of OptimizedFresnelConcentrator (instantiated at
focal length 1265) the primary designation moves from the first wavelength
to the second. -/
theorem claim_C3_roundtrip_counterexample :
    ¬ ((round_trip create_realistic_fresnel_lens).surfaces.map (fun s => s.is_stop) =
        create_realistic_fresnel_lens.surfaces.map (fun s => s.is_stop) ∧
      (round_trip (optimized_fresnel_concentrator 1265)).wavelengths.map
          (fun w => w.is_primary) =
        (optimized_fresnel_concentrator 1265).wavelengths.map (fun w => w.is_primary)) := by
  decide

/-- Claim C3 (amended): for a lens with angle fields, an EPD aperture and no
material literally named "air", the round trip preserves the name, each
surface's radius, thickness, material and conic, the aperture type and
value, the field type and field list, and the wavelength value list; but it
clears every stop marking and re-marks primary at wavelength index 1, so
the stop-surface marking and the primary designation of the original lens
are not preserved. -/
theorem claim_C3_roundtrip_amended (lens : Optic)
    (hft : lens.field_type = "angle") (hap : lens.aperture_type = "EPD")
    (hair : ∀ s ∈ lens.surfaces, s.material ≠ some "air") :
    (round_trip lens).name = lens.name ∧
    (round_trip lens).surfaces.map surface_core = lens.surfaces.map surface_core ∧
    (round_trip lens).aperture_type = lens.aperture_type ∧
    (round_trip lens).aperture_value = lens.aperture_value ∧
    (round_trip lens).field_type = lens.field_type ∧
    (round_trip lens).fields = lens.fields ∧
    (round_trip lens).wavelengths.map (fun w => w.value) =
      lens.wavelengths.map (fun w => w.value) ∧
    (∀ s ∈ (round_trip lens).surfaces, s.is_stop = false) ∧
    countPrimaries (round_trip lens) = if 2 ≤ lens.wavelengths.length then 1 else 0 := by
  refine ⟨rfl, ?_, ?_, ?_, ?_, rfl, ?_, ?_, ?_⟩
  · exact roundtrip_surface_core 0 lens.surfaces hair
  · simp [round_trip, autolens_to_optiland, optiland_to_autolens, hap]
  · simp [round_trip, autolens_to_optiland, optiland_to_autolens,
      aperture_surface_diameter, hap]
  · simp [round_trip, autolens_to_optiland, hft]
  · simp [round_trip, autolens_to_optiland, optiland_to_autolens, mark_primaries_values]
  · intro s hs
    simp [round_trip, autolens_to_optiland] at hs
    obtain ⟨t, -, rfl⟩ := hs
    rfl
  · simp [countPrimaries, round_trip, autolens_to_optiland, optiland_to_autolens,
      countPrimaries_mark_primaries]

/-- Witness for claim C3 (amended) at the lens of
create_realistic_fresnel_lens, whose hypotheses hold by computation. -/
theorem claim_C3_roundtrip_amended_witness :
    (round_trip create_realistic_fresnel_lens).surfaces.map surface_core =
      create_realistic_fresnel_lens.surfaces.map surface_core ∧
    (round_trip create_realistic_fresnel_lens).fields =
      create_realistic_fresnel_lens.fields :=
  ⟨(claim_C3_roundtrip_amended create_realistic_fresnel_lens rfl rfl (by decide)).2.1,
   (claim_C3_roundtrip_amended create_realistic_fresnel_lens rfl rfl
      (by decide)).2.2.2.2.2.1⟩

/-- An AutoLens specification with a single wavelength, the C7
counterexample input. -/
def single_wavelength_spec : AutolensData :=
  { lens_name := "Single", surfaces := [], fields := [0], wavelengths := [55 / 100],
    aperture_type := "EPD", aperture_value := 10 }

/-- Claim C7 (counterexample): autolens_to_optiland applied to a
specification with exactly one wavelength marks no wavelength primary
(is_primary = (i == 1) never fires), violating the exactly-one-primary
invariant the claim asserts for every input specification. -/
theorem claim_C7_counterexample :
    ¬ countPrimaries (autolens_to_optiland single_wavelength_spec) = 1 := by decide

/-- Claim C7 (amended): the script builders (OptimizedFresnelConcentrator
at every focal length, create_realistic_fresnel_lens, the fisheye lens and
the endoscope lens) each mark exactly one stop surface and exactly one
primary wavelength; autolens_to_optiland marks no stop surface at all
(hence at most one) and marks exactly one wavelength primary precisely when
its wavelength list has at least two entries — for a singleton list none is
primary. -/
theorem claim_C7_builder_invariants :
    (∀ fl : ℚ, countStops (optimized_fresnel_concentrator fl) = 1 ∧
      countPrimaries (optimized_fresnel_concentrator fl) = 1) ∧
    (countStops create_realistic_fresnel_lens = 1 ∧
      countPrimaries create_realistic_fresnel_lens = 1) ∧
    (countStops wide_angle_fisheye_lens = 1 ∧ countPrimaries wide_angle_fisheye_lens = 1) ∧
    (countStops simple_endoscope = 1 ∧ countPrimaries simple_endoscope = 1) ∧
    ∀ d : AutolensData, countStops (autolens_to_optiland d) = 0 ∧
      countPrimaries (autolens_to_optiland d) = if 2 ≤ d.wavelengths.length then 1 else 0 := by
  refine ⟨fun fl => ⟨rfl, rfl⟩, ⟨rfl, rfl⟩, ⟨rfl, rfl⟩, ⟨rfl, rfl⟩, fun d => ⟨?_, ?_⟩⟩
  · simp [countStops, autolens_to_optiland]
    intro a _
    rfl
  · simp [countPrimaries, autolens_to_optiland, countPrimaries_mark_primaries]

/-- Clamping to a bounds box of length at most the vector length yields the
box length. -/
lemma clampVec_length (bs : List VarBounds) (v : List ℚ) (h : bs.length ≤ v.length) :
    (clampVec bs v).length = bs.length := by
  simp [clampVec]
  omega

/-- Every coordinate of a clamped vector lies in its interval when the
bounds are well-formed. -/
lemma clampVec_bounds (bs : List VarBounds) (v : List ℚ)
    (hvalid : ∀ b ∈ bs, b.lo ≤ b.hi) :
    ∀ i, i < bs.length → i < v.length →
      (bs.getD i { lo := 0, hi := 0 }).lo ≤ (clampVec bs v).getD i 0 ∧
      (clampVec bs v).getD i 0 ≤ (bs.getD i { lo := 0, hi := 0 }).hi := by
  induction bs generalizing v with
  | nil =>
    intro i hi
    simp at hi
  | cons b rest ih =>
    intro i hi hiv
    cases v with
    | nil => simp at hiv
    | cons x xs =>
      cases i with
      | zero =>
        refine ⟨?_, ?_⟩
        · simp [clampVec, clampB]
        · simpa [clampVec, clampB] using
            max_le (hvalid b (List.mem_cons_self b rest)) (min_le_left b.hi x)
      | succ j =>
        have hres := ih xs (fun t ht => hvalid t (List.mem_cons_of_mem b ht)) j
          (by simpa using hi) (by simpa using hiv)
        simpa [clampVec] using hres

/-- A clamped vector of sufficient length lies within the bounds. -/
lemma inBounds_clampVec (bs : List VarBounds) (v : List ℚ)
    (hvalid : ∀ b ∈ bs, b.lo ≤ b.hi) (hlen : bs.length ≤ v.length) :
    InBoundsVec bs (clampVec bs v) := by
  refine ⟨clampVec_length bs v hlen, fun i hi => ?_⟩
  exact clampVec_bounds bs v hvalid i hi (by omega)

/-- Crossover always produces a vector of the parent length. -/
lemma de_crossover_length (mask : List Bool) (donor parent : List ℚ) :
    (de_crossover mask donor parent).length = parent.length := by
  simp [de_crossover]

/-- One member update keeps the member within the bounds box. -/
lemma de_member_step_inBounds (merit : List ℚ → ℚ) (bs : List VarBounds) (F : ℚ)
    (pop : List (List ℚ)) (x : List ℚ) (ch : DEChoice)
    (hvalid : ∀ b ∈ bs, b.lo ≤ b.hi) (hx : InBoundsVec bs x) :
    InBoundsVec bs (de_member_step merit bs F pop x ch) := by
  unfold de_member_step
  dsimp only
  split
  · exact inBounds_clampVec bs _ hvalid (by rw [de_crossover_length, hx.1])
  · exact hx

/-- The generation update loop keeps every member within bounds. -/
lemma de_generation_aux_inBounds (merit : List ℚ → ℚ) (bs : List VarBounds) (F : ℚ)
    (pop : List (List ℚ)) (hvalid : ∀ b ∈ bs, b.lo ≤ b.hi) :
    ∀ (xs : List (List ℚ)) (plan : List DEChoice),
      (∀ v ∈ xs, InBoundsVec bs v) →
      ∀ v ∈ de_generation_aux merit bs F pop xs plan, InBoundsVec bs v := by
  intro xs
  induction xs with
  | nil =>
    intro plan _ v hv
    cases plan <;> simp [de_generation_aux] at hv
  | cons x rest ih =>
    intro plan hxs v hv
    cases plan with
    | nil => exact hxs v hv
    | cons ch plan =>
      simp only [de_generation_aux, List.mem_cons] at hv
      rcases hv with rfl | hv
      · exact de_member_step_inBounds merit bs F pop x ch hvalid
          (hxs x (List.mem_cons_self x rest))
      · exact ih plan (fun t ht => hxs t (List.mem_cons_of_mem x ht)) v hv

/-- The generation update loop never changes the population size. -/
lemma de_generation_aux_length (merit : List ℚ → ℚ) (bs : List VarBounds) (F : ℚ)
    (pop : List (List ℚ)) :
    ∀ (xs : List (List ℚ)) (plan : List DEChoice),
      (de_generation_aux merit bs F pop xs plan).length = xs.length := by
  intro xs
  induction xs with
  | nil =>
    intro plan
    cases plan <;> rfl
  | cons x rest ih =>
    intro plan
    cases plan with
    | nil => rfl
    | cons ch plan => simp [de_generation_aux, ih plan]

/-- The whole generation loop keeps every member within bounds. -/
lemma de_run_inBounds (merit : List ℚ → ℚ) (bs : List VarBounds) (F : ℚ)
    (hvalid : ∀ b ∈ bs, b.lo ≤ b.hi) :
    ∀ (plans : List (List DEChoice)) (pop : List (List ℚ)),
      (∀ v ∈ pop, InBoundsVec bs v) →
      ∀ v ∈ de_run merit bs F plans pop, InBoundsVec bs v := by
  intro plans
  induction plans with
  | nil =>
    intro pop hpop v hv
    exact hpop v hv
  | cons plan plans ih =>
    intro pop hpop v hv
    exact ih (de_generation merit bs F pop plan)
      (de_generation_aux_inBounds merit bs F pop hvalid pop plan hpop) v hv

/-- The generation loop never changes the population size. -/
lemma de_run_length (merit : List ℚ → ℚ) (bs : List VarBounds) (F : ℚ) :
    ∀ (plans : List (List DEChoice)) (pop : List (List ℚ)),
      (de_run merit bs F plans pop).length = pop.length := by
  intro plans
  induction plans with
  | nil => intro pop; rfl
  | cons plan plans ih =>
    intro pop
    rw [show de_run merit bs F (plan :: plans) pop =
      de_run merit bs F plans (de_generation merit bs F pop plan) from rfl, ih,
      de_generation, de_generation_aux_length]

/-- Every seeded member of the initial population is within bounds. -/
lemma de_init_population_inBounds (bs : List VarBounds) (seeds : List (List ℚ))
    (hvalid : ∀ b ∈ bs, b.lo ≤ b.hi) :
    ∀ v ∈ de_init_population bs seeds, InBoundsVec bs v := by
  intro v hv
  simp only [de_init_population, List.mem_map] at hv
  obtain ⟨s, -, rfl⟩ := hv
  exact inBounds_clampVec bs _ hvalid (by simp)

/-- The best-member fold selects among in-bounds candidates only. -/
lemma de_fold_best_inBounds (merit : List ℚ → ℚ) (bs : List VarBounds) :
    ∀ (l : List (List ℚ)) (acc : List ℚ), InBoundsVec bs acc →
      (∀ v ∈ l, InBoundsVec bs v) →
      InBoundsVec bs (l.foldl (fun best v => if merit v ≤ merit best then v else best) acc) := by
  intro l
  induction l with
  | nil =>
    intro acc ha _
    exact ha
  | cons x rest ih =>
    intro acc ha hl
    rw [List.foldl_cons]
    by_cases hc : merit x ≤ merit acc
    · simp only [hc, if_pos]
      exact ih x (hl x (List.mem_cons_self x rest))
        (fun t ht => hl t (List.mem_cons_of_mem x ht))
    · simp only [hc, if_neg, if_false]
      exact ih acc ha (fun t ht => hl t (List.mem_cons_of_mem x ht))

/-- The best member of a nonempty in-bounds population is within bounds. -/
lemma de_best_inBounds (merit : List ℚ → ℚ) (bs : List VarBounds)
    (pop : List (List ℚ)) (hne : pop ≠ [])
    (hpop : ∀ v ∈ pop, InBoundsVec bs v) : InBoundsVec bs (de_best merit pop) := by
  cases pop with
  | nil => exact absurd rfl hne
  | cons x rest =>
    unfold de_best
    simp only [List.headD_cons]
    exact de_fold_best_inBounds merit bs (x :: rest) x
      (hpop x (List.mem_cons_self x rest)) hpop

/-- Claim C4: the optimizer never returns bounds-violating variable values.
For every merit function, well-formed bounds vector, differential weight,
nonempty seed population and stochastic plan, the solution applied to the
lens on return lies within its declared lower and upper bounds inclusive;
in particular this covers the ten fisheye radius variables, whose declared
bounds are exactly -100 and 100, and the endoscope radius variables, whose
declared bounds are the per-surface min_val, max_val intervals of the
script. -/
theorem claim_C4_optimizer_within_bounds (merit : List ℚ → ℚ) (bs : List VarBounds)
    (F : ℚ) (seeds : List (List ℚ)) (plans : List (List DEChoice))
    (hvalid : ∀ b ∈ bs, b.lo ≤ b.hi) (hne : seeds ≠ []) :
    InBoundsVec bs (de_optimize merit bs F seeds plans) ∧
    (∀ b ∈ problem_bounds create_optimization_problem, b.lo = -100 ∧ b.hi = 100) ∧
    problem_bounds endoscope_problem =
      endoscope_radius_bounds.map (fun t => { lo := t.2.1, hi := t.2.2 }) := by
  refine ⟨?_, by decide, by decide⟩
  unfold de_optimize
  apply de_best_inBounds
  · intro h0
    have h1 := de_run_length merit bs F plans (de_init_population bs seeds)
    rw [h0] at h1
    simp [de_init_population] at h1
    exact hne (List.length_eq_zero.mp h1.symm)
  · exact de_run_inBounds merit bs F hvalid plans (de_init_population bs seeds)
      (de_init_population_inBounds bs seeds hvalid)

/-- Witness for claim C4 at the fisheye bounds with a concrete seed and a
one-generation plan. -/
theorem claim_C4_optimizer_within_bounds_witness :
    InBoundsVec (problem_bounds create_optimization_problem)
      (de_optimize (fun _ => 0) (problem_bounds create_optimization_problem) (1 / 2)
        [List.replicate 10 1000] [[{ ia := 0, ib := 0, ic := 0, mask := List.replicate 10 true }]]) :=
  (claim_C4_optimizer_within_bounds (fun _ => 0) (problem_bounds create_optimization_problem)
    (1 / 2) [List.replicate 10 1000]
    [[{ ia := 0, ib := 0, ic := 0, mask := List.replicate 10 true }]]
    (by decide) (by decide)).1

/-- Embedding of Optic.set_aperture: replaces the aperture definition of a
lens, as the scripts call it with aperture_type and value. -/
def set_aperture (lens : Optic) (aperture_type : String) (value : ℚ) : Optic :=
  { lens with aperture_type := aperture_type, aperture_value := value }

/-- The fisheye lens with its aperture value set to 0, the scenario lens of
claim C5 (zero available aperture). -/
def fisheye_zero_aperture : Optic :=
  set_aperture wide_angle_fisheye_lens "EPD" 0

/-- Claim C5: tracing a field at the declared maximum field angle (the
fisheye maximum, normalized Hy = 1) with aperture value 0 yields a
RayBundle value with zero successful rays and every ray failed — for any
pupil sampling whatsoever — rather than a crash, and the rms_spot_size
merit evaluation of that empty bundle returns the large fixed penalty,
which exceeds the maximum realistic RMS by four orders of magnitude. -/
theorem claim_C5_zero_aperture_penalty (pupil : List (ℚ × ℚ)) :
    (traceField fisheye_zero_aperture 1 (550 / 1000) pupil).survivors = [] ∧
    (traceField fisheye_zero_aperture 1 (550 / 1000) pupil).failed = pupil.length ∧
    rms_spot_size_value (traceField fisheye_zero_aperture 1 (550 / 1000) pupil) =
      NO_RAYS_PENALTY ∧
    10 ^ 4 * MAX_REALISTIC_RMS ≤ NO_RAYS_PENALTY := by
  have hr : stop_semi_aperture fisheye_zero_aperture = 0 := by
    norm_num [stop_semi_aperture, fisheye_zero_aperture, set_aperture]
  have hsurv : (traceField fisheye_zero_aperture 1 (550 / 1000) pupil).survivors = [] := by
    simp only [traceField, hr]
    rw [List.filter_eq_nil_iff]
    intro q hq
    simp only [List.mem_map] at hq
    obtain ⟨p, -, rfl⟩ := hq
    norm_num
  refine ⟨hsurv, ?_, ?_, by norm_num [NO_RAYS_PENALTY, MAX_REALISTIC_RMS]⟩
  · have : (traceField fisheye_zero_aperture 1 (550 / 1000) pupil).failed =
        pupil.length - (traceField fisheye_zero_aperture 1 (550 / 1000) pupil).survivors.length := by
      simp [traceField]
    rw [this, hsurv]
    simp
  · simp [rms_spot_size_value, hsurv]

/-- Claim C6: merit evaluation is deterministic. Two evaluations of the
same unmodified lens under arbitrary ambient environments (wall clock,
entropy) give identical results — stated for the fisheye lens with its
seven rms_spot_size operands (each with num_rays 31, hexapolar
distribution, wavelength 0.550) and for every lens and operand list. -/
theorem claim_C6_merit_deterministic (env1 env2 : MeritEnv) :
    evaluate_in_env env1 wide_angle_fisheye_lens create_optimization_problem.operands =
      evaluate_in_env env2 wide_angle_fisheye_lens create_optimization_problem.operands ∧
    (∀ (lens : Optic) (operands : List Operand),
      evaluate_in_env env1 lens operands = evaluate_in_env env2 lens operands) ∧
    create_optimization_problem.operands.map (fun op =>
        (op.operand_type, op.input_data.num_rays, op.input_data.distribution,
          op.input_data.wavelength)) =
      List.replicate 7 ("rms_spot_size", 31, some "hexapolar", 550 / 1000) := by
  refine ⟨rfl, fun lens operands => rfl, ?_⟩
  rfl

end OptilandPr
